import Mathlib

/-!
Shallow embedding of the task-tracking backend (`src/backend/server.js`
together with the table and trigger in
`src/database/init-scripts/01-init.sql`).

Modelling choices, each traced to the source:

* A stored task row (`tasks` table): `id SERIAL PRIMARY KEY`,
  `title VARCHAR(255) NOT NULL`, `description TEXT` (nullable),
  `completed BOOLEAN DEFAULT FALSE`, `created_at`/`updated_at`
  `TIMESTAMP DEFAULT CURRENT_TIMESTAMP`.  Timestamps are `Nat` clock
  values.
* The system state is the table contents (in insertion order), the
  next `SERIAL` value, and the single Redis key `tasks:all`, modelled
  as an optional cache entry carrying the cached row list and its
  absolute expiry instant (`setEx key 60 v` stores expiry `now + 60`;
  a `get` at time `t` sees the key iff `t < expiry`).
* `SELECT * FROM tasks ORDER BY created_at DESC` is embedded
  relationally: SQL fixes only that the result is a permutation of the
  table sorted by `created_at` descending (the query has no secondary
  sort key), so the handlers take the database's reply as a parameter
  constrained by `ValidQueryResult`.
* External failures (database connectivity on the insert, Redis
  failure on `del`) are passed to the create handler as explicit
  outcome parameters; a failure makes the corresponding `await` throw,
  which the handler's `catch` turns into a 500 response carrying
  `err.message`.
-/

namespace TaskApp

structure Task where
  id : Nat
  title : String
  description : Option String
  completed : Bool
  created_at : Nat
  updated_at : Nat
deriving DecidableEq, Repr

structure CacheEntry where
  value : List Task
  expires_at : Nat
deriving DecidableEq, Repr

structure SysState where
  store : List Task
  nextId : Nat
  cache : Option CacheEntry
deriving DecidableEq, Repr

/-- `redisClient.get('tasks:all')` at clock instant `now`: the key is
visible iff it is present and not yet expired. -/
def cacheGet (s : SysState) (now : Nat) : Option (List Task) :=
  match s.cache with
  | some e => if now < e.expires_at then some e.value else none
  | none => none

/-- Result rows of `SELECT * FROM tasks ORDER BY created_at DESC` are
pairwise nonincreasing in `created_at`. -/
abbrev sortedByCreatedAtDesc (rows : List Task) : Prop :=
  rows.Pairwise (fun a b => b.created_at ≤ a.created_at)

/-- All that the SQL query `SELECT * FROM tasks ORDER BY created_at
DESC` guarantees about the returned rows: they are a permutation of the
table, sorted by `created_at` descending.  No secondary sort key is
given, so tie order is not constrained further. -/
abbrev ValidQueryResult (store rows : List Task) : Prop :=
  rows.Perm store ∧ sortedByCreatedAtDesc rows

/-- Body of the `GET /api/tasks` JSON response:
`{ source: ..., data: ... }`. -/
structure ListResult where
  source : String
  data : List Task
deriving DecidableEq, Repr

/-- The `GET /api/tasks` handler.  `dbRows` is the reply the database
would give to the `SELECT` (only consulted on the miss path).  On a
cache hit the handler returns the parsed cached value with source
`cache` and returns early; on a miss it queries, caches the rows for 60
seconds via `setEx`, and answers with source `database`. -/
def listTasks (s : SysState) (now : Nat) (dbRows : List Task) :
    ListResult × SysState :=
  match cacheGet s now with
  | some v => (⟨"cache", v⟩, s)
  | none =>
      (⟨"database", dbRows⟩,
       { s with cache := some ⟨dbRows, now + 60⟩ })

/-- HTTP outcome of `POST /api/tasks`: either `201` with the created
row, or `500` with `{ error: err.message }`. -/
inductive CreateResponse where
  | created (t : Task)
  | serverError (msg : String)
deriving DecidableEq, Repr

/-- Error message produced by PostgreSQL when the `NOT NULL` constraint
on `title` rejects an insert with a null title. -/
def notNullViolationMsg : String :=
  "null value in column \"title\" violates not-null constraint"

/-- The `POST /api/tasks` handler.  `title`/`description` come from the
request body (`none` models an absent field, which `pg` sends as SQL
`NULL`).  `dbFail` is `some msg` when the `INSERT` fails for an
environmental reason (connectivity etc.); independently of that, a null
`title` makes the insert throw the `NOT NULL` violation.  `delFail` is
`some msg` when `redisClient.del('tasks:all')` rejects.  Any thrown
error is caught and answered as a 500; note that a `del` failure
happens after the insert, so the row stays in the table but the
response is the 500 from the `catch` block. -/
def createTask (s : SysState) (title description : Option String)
    (now : Nat) (dbFail : Option String) (delFail : Option String) :
    CreateResponse × SysState :=
  match dbFail with
  | some msg => (.serverError msg, s)
  | none =>
    match title with
    | none => (.serverError notNullViolationMsg, s)
    | some t =>
      let task : Task := ⟨s.nextId, t, description, false, now, now⟩
      let s1 : SysState :=
        { s with store := s.store ++ [task], nextId := s.nextId + 1 }
      match delFail with
      | some msg => (.serverError msg, s1)
      | none => (.created task, { s1 with cache := none })

/-- Body of the `GET /health` JSON response. -/
structure HealthResponse where
  status : String
  timestamp : Nat
deriving DecidableEq, Repr

/-- The `GET /health` handler: responds with the default 200 status and
`{ status: 'healthy', timestamp: new Date() }`; it reads neither the
pool nor the Redis client, so the state passes through untouched. -/
def healthHandler (s : SysState) (now : Nat) :
    (Nat × HealthResponse) × SysState :=
  ((200, ⟨"healthy", now⟩), s)

/-- Effect of a SQL `UPDATE` on a row of `tasks`, composed with the
`update_tasks_updated_at` trigger from `01-init.sql`: the trigger runs
`BEFORE UPDATE FOR EACH ROW` and overwrites `NEW.updated_at` with
`CURRENT_TIMESTAMP`.  The updatable payload columns are `title`,
`description`, `completed`; the row is addressed by its primary key. -/
def updateTask (s : SysState) (tid : Nat) (newTitle : String)
    (newDesc : Option String) (newCompleted : Bool) (now : Nat) :
    SysState :=
  { s with
    store := s.store.map (fun t =>
      if t.id = tid then
        { t with title := newTitle, description := newDesc,
                 completed := newCompleted, updated_at := now }
      else t) }

/-- Well-formedness of the table: every row satisfies
`created_at ≤ updated_at`, every row id is below the next `SERIAL`
value, and row ids are pairwise distinct. -/
abbrev WF (s : SysState) : Prop :=
  (∀ t ∈ s.store, t.created_at ≤ t.updated_at) ∧
  (∀ t ∈ s.store, t.id < s.nextId) ∧
  s.store.Pairwise (fun a b => a.id ≠ b.id)

/-- The claim that ties in `created_at` come back in store-assigned id
ascending order (what the spec asserts about tie-breaking). -/
abbrev tiesIdAscending (rows : List Task) : Prop :=
  rows.Pairwise (fun a b => a.created_at = b.created_at → a.id < b.id)

/-- Concrete rows used by witnesses. -/
def sampleTask : Task := ⟨1, "A", some "d1", false, 10, 10⟩

def sampleTask2 : Task := ⟨2, "B", some "d2", false, 10, 10⟩

/-- C1: a `create(title, description)` call whose store insert (and
cache delete) succeeds ends with the `tasks:all` entry deleted and
returns 201 with the new row; any subsequent `list()` therefore takes
the miss path and returns a valid query result of the updated table,
which contains the new task. -/
theorem create_then_list_contains_new_task
    (s : SysState) (t : String) (descr : Option String) (now now2 : Nat)
    (rows : List Task)
    (hrows : ValidQueryResult (createTask s (some t) descr now none none).2.store rows) :
    (createTask s (some t) descr now none none).2.cache = none ∧
    (createTask s (some t) descr now none none).1
      = .created ⟨s.nextId, t, descr, false, now, now⟩ ∧
    listTasks (createTask s (some t) descr now none none).2 now2 rows
      = (⟨"database", rows⟩,
         { (createTask s (some t) descr now none none).2 with
             cache := some ⟨rows, now2 + 60⟩ }) ∧
    (⟨s.nextId, t, descr, false, now, now⟩ : Task) ∈ rows := by
  refine ⟨rfl, rfl, ?_, ?_⟩
  · simp [listTasks, cacheGet, createTask]
  · have hmem : (⟨s.nextId, t, descr, false, now, now⟩ : Task)
        ∈ (createTask s (some t) descr now none none).2.store := by
      simp [createTask]
    exact hrows.1.mem_iff.mpr hmem

/-- C1 witness: concrete instance of the create-then-list scenario. -/
theorem create_then_list_contains_new_task_witness :
    (⟨2, "B", some "d2", false, 11, 11⟩ : Task)
      ∈ [⟨2, "B", some "d2", false, 11, 11⟩, sampleTask] :=
  (create_then_list_contains_new_task ⟨[sampleTask], 2, some ⟨[sampleTask], 70⟩⟩
    "B" (some "d2") 11 12 [⟨2, "B", some "d2", false, 11, 11⟩, sampleTask]
    (by decide)).2.2.2

/-- C2 counterexample: `create` with the empty-string title is not
rejected — the handler performs no validation and the `NOT NULL`
constraint accepts the empty string — so a row is inserted, the
`tasks:all` entry is deleted, and the response is 201 with the row,
contradicting the claim that an empty title fails before any external
effect. -/
theorem empty_title_create_succeeds :
    createTask ⟨[], 1, some ⟨[], 120⟩⟩ (some "") (some "d") 5 none none
      = (.created ⟨1, "", some "d", false, 5, 5⟩,
         ⟨[⟨1, "", some "d", false, 5, 5⟩], 2, none⟩) := by
  decide

/-- C2 amended: only a missing (null) title is rejected, and the
rejection comes from the Task Store's `NOT NULL` constraint when the
insert is attempted — surfaced as a 500 — with no row inserted and the
cache left untouched; an empty-string title is not rejected. -/
theorem missing_title_insert_fails
    (s : SysState) (descr : Option String) (now : Nat)
    (delFail : Option String) :
    createTask s none descr now none delFail
      = (.serverError notNullViolationMsg, s) := by
  simp [createTask]

/-- C3: a `list()` call with a live cache entry returns the cached
value tagged `cache` and changes nothing (for any database reply); a
`list()` call with the entry absent or expired, given a valid reply of
the store to the ordered `SELECT`, returns that reply tagged
`database` and caches it with expiry `now + 60`. -/
theorem list_hit_and_miss_paths
    (s : SysState) (now : Nat) (rows : List Task) :
    (∀ v, cacheGet s now = some v →
        listTasks s now rows = (⟨"cache", v⟩, s)) ∧
    (cacheGet s now = none → ValidQueryResult s.store rows →
        listTasks s now rows
          = (⟨"database", rows⟩, { s with cache := some ⟨rows, now + 60⟩ })) := by
  constructor
  · intro v hv
    simp [listTasks, hv]
  · intro hmiss _
    simp [listTasks, hmiss]

/-- C3 witness: both paths exercised at concrete states. -/
theorem list_hit_and_miss_paths_witness :
    listTasks ⟨[sampleTask], 2, some ⟨[sampleTask], 30⟩⟩ 10 []
      = (⟨"cache", [sampleTask]⟩, ⟨[sampleTask], 2, some ⟨[sampleTask], 30⟩⟩) ∧
    listTasks ⟨[sampleTask], 2, none⟩ 10 [sampleTask]
      = (⟨"database", [sampleTask]⟩, ⟨[sampleTask], 2, some ⟨[sampleTask], 70⟩⟩) :=
  ⟨(list_hit_and_miss_paths ⟨[sampleTask], 2, some ⟨[sampleTask], 30⟩⟩ 10 []).1
      [sampleTask] rfl,
   (list_hit_and_miss_paths ⟨[sampleTask], 2, none⟩ 10 [sampleTask]).2
      rfl (by decide)⟩

/-- C4 counterexample: the `SELECT` has no secondary sort key, so a
reply ordering two rows with equal `created_at` by id descending is a
valid query result; the claimed id-ascending tie-break is therefore
not guaranteed by the code. -/
theorem tie_order_not_guaranteed :
    ¬ (∀ store rows : List Task, ValidQueryResult store rows →
        sortedByCreatedAtDesc rows ∧ tiesIdAscending rows) := by
  intro h
  have := h [sampleTask, sampleTask2] [sampleTask2, sampleTask] (by decide)
  exact absurd this.2 (by decide)

/-- C4 amended: every `list()` miss-path result is ordered by
`created_at` descending; the relative order of rows with equal
`created_at` is unspecified. -/
theorem list_result_sorted_desc
    (s : SysState) (now : Nat) (rows : List Task)
    (hmiss : cacheGet s now = none)
    (hvalid : ValidQueryResult s.store rows) :
    sortedByCreatedAtDesc (listTasks s now rows).1.data := by
  simpa [listTasks, hmiss] using hvalid.2

/-- C4 witness: the amended ordering property at a concrete state. -/
theorem list_result_sorted_desc_witness :
    sortedByCreatedAtDesc
      (listTasks ⟨[sampleTask], 2, none⟩ 10 [sampleTask]).1.data :=
  list_result_sorted_desc ⟨[sampleTask], 2, none⟩ 10 [sampleTask] rfl (by decide)

/-- C5: when the store insert itself fails, the error message is
propagated as a 500 response and the state — table and cache alike —
is exactly the state before the call; the handler makes a single
attempt and has no retry path. -/
theorem store_failure_propagates_without_invalidation
    (s : SysState) (title descr : Option String) (now : Nat)
    (msg : String) (delFail : Option String) :
    createTask s title descr now (some msg) delFail
      = (.serverError msg, s) := by
  simp [createTask]

/-- C6 counterexample: when the store insert succeeds but the
`tasks:all` delete rejects, the `catch` block answers 500 with the
delete error — the caller does not receive the created task —
although the row was inserted and the stale cache entry survives. -/
theorem del_failure_yields_500 :
    createTask ⟨[], 1, some ⟨[], 120⟩⟩ (some "A") (some "d") 5 none
        (some "redis down")
      = (.serverError "redis down",
         ⟨[⟨1, "A", some "d", false, 5, 5⟩], 2, some ⟨[], 120⟩⟩) := by
  decide

/-- C6 amended: when the insert succeeds but the cache delete fails,
the row is still inserted into the store (no rollback) and the cache
entry is left in place, but from the caller's point of view the call
fails: the response is a 500 carrying the delete error message, not
the created task. -/
theorem del_failure_row_kept_but_500
    (s : SysState) (t : String) (descr : Option String) (now : Nat)
    (msg : String) :
    createTask s (some t) descr now none (some msg)
      = (.serverError msg,
         { s with store := s.store ++ [⟨s.nextId, t, descr, false, now, now⟩],
                  nextId := s.nextId + 1 }) := by
  simp [createTask]

/-- C7: a second `list()` within 60 seconds of a cache-populating
`list()`, with no intervening `create`, is served from the cache: it
is tagged `cache`, its data is exactly the data of the first call (so
the serialized bytes coincide), and the state is untouched. -/
theorem second_list_within_ttl_hits_cache
    (s : SysState) (now now2 : Nat) (rows rows2 : List Task)
    (hmiss : cacheGet s now = none) (hafter : now ≤ now2)
    (hwithin : now2 < now + 60) :
    (listTasks (listTasks s now rows).2 now2 rows2).1
      = ⟨"cache", (listTasks s now rows).1.data⟩ ∧
    (listTasks (listTasks s now rows).2 now2 rows2).2
      = (listTasks s now rows).2 := by
  have h1 : listTasks s now rows
      = (⟨"database", rows⟩, { s with cache := some ⟨rows, now + 60⟩ }) := by
    simp [listTasks, hmiss]
  rw [h1]
  simp [listTasks, cacheGet, hwithin]

/-- C7 witness: a concrete back-to-back pair of `list()` calls. -/
theorem second_list_within_ttl_hits_cache_witness :
    (listTasks (listTasks ⟨[sampleTask], 2, none⟩ 10 [sampleTask]).2 50 []).1
      = ⟨"cache", (listTasks ⟨[sampleTask], 2, none⟩ 10 [sampleTask]).1.data⟩ :=
  (second_list_within_ttl_hits_cache ⟨[sampleTask], 2, none⟩ 10 50 [sampleTask] []
    rfl (by decide) (by decide)).1

/-- Inserting a fresh row with id `nextId` and both timestamps equal
to the insertion instant preserves table well-formedness, whatever the
cache field becomes. -/
theorem WF_append (s : SysState) (hWF : WF s) (t : String)
    (descr : Option String) (now : Nat) (c : Option CacheEntry) :
    WF ⟨s.store ++ [⟨s.nextId, t, descr, false, now, now⟩], s.nextId + 1, c⟩ := by
  refine ⟨?_, ?_, ?_⟩
  · intro u hu
    rcases List.mem_append.1 hu with h | h
    · exact hWF.1 u h
    · rcases List.mem_singleton.1 h with rfl
      exact le_refl now
  · intro u hu
    rcases List.mem_append.1 hu with h | h
    · exact Nat.lt_succ_of_lt (hWF.2.1 u h)
    · rcases List.mem_singleton.1 h with rfl
      exact Nat.lt_succ_self _
  · refine List.pairwise_append.mpr ⟨hWF.2.2, by simp, ?_⟩
    intro a ha b hb
    rcases List.mem_singleton.1 hb with rfl
    exact Nat.ne_of_lt (hWF.2.1 a ha)

/-- C8: after any operation the table stays well-formed — in
particular `created_at ≤ updated_at` for every row — and ids are
stable: a successful insert only appends (existing rows and their ids
are untouched), an `UPDATE` through the trigger never changes any
row's `id` or `created_at`, and `list()` never writes to the table. -/
theorem operations_preserve_invariants
    (s : SysState) (now : Nat) (hWF : WF s)
    (hclock : ∀ u ∈ s.store, u.created_at ≤ now) :
    (∀ title descr dbFail delFail,
        WF (createTask s title descr now dbFail delFail).2 ∧
        ∃ tail, (createTask s title descr now dbFail delFail).2.store
          = s.store ++ tail) ∧
    (∀ tid nt nd nc,
        WF (updateTask s tid nt nd nc now) ∧
        (updateTask s tid nt nd nc now).store.map Task.id
          = s.store.map Task.id ∧
        (updateTask s tid nt nd nc now).store.map Task.created_at
          = s.store.map Task.created_at) ∧
    (∀ now2 rows, (listTasks s now2 rows).2.store = s.store) := by
  refine ⟨?_, ?_, ?_⟩
  · intro title descr dbFail delFail
    cases dbFail with
    | some msg => exact ⟨hWF, [], by simp [createTask]⟩
    | none =>
      cases title with
      | none => exact ⟨hWF, [], by simp [createTask]⟩
      | some t =>
        cases delFail with
        | some msg =>
          exact ⟨WF_append s hWF t descr now s.cache,
                 [⟨s.nextId, t, descr, false, now, now⟩], by simp [createTask]⟩
        | none =>
          exact ⟨WF_append s hWF t descr now none,
                 [⟨s.nextId, t, descr, false, now, now⟩], by simp [createTask]⟩
  · intro tid nt nd nc
    have hfid : ∀ u : Task,
        (if u.id = tid then
          ({ u with title := nt, description := nd, completed := nc,
                    updated_at := now } : Task) else u).id = u.id := by
      intro u; split <;> rfl
    have hfca : ∀ u : Task,
        (if u.id = tid then
          ({ u with title := nt, description := nd, completed := nc,
                    updated_at := now } : Task) else u).created_at
          = u.created_at := by
      intro u; split <;> rfl
    refine ⟨⟨?_, ?_, ?_⟩, ?_, ?_⟩
    · intro u hu
      simp only [updateTask, List.mem_map] at hu
      obtain ⟨v, hv, rfl⟩ := hu
      by_cases h : v.id = tid
      · simpa [h] using hclock v hv
      · simpa [h] using hWF.1 v hv
    · intro u hu
      simp only [updateTask, List.mem_map] at hu
      obtain ⟨v, hv, rfl⟩ := hu
      simpa only [updateTask, hfid v] using hWF.2.1 v hv
    · simp only [updateTask]
      rw [List.pairwise_map]
      refine hWF.2.2.imp ?_
      intro a b hab
      rw [hfid a, hfid b]; exact hab
    · simp only [updateTask, List.map_map]
      exact List.map_congr_left fun a _ => hfid a
    · simp only [updateTask, List.map_map]
      exact List.map_congr_left fun a _ => hfca a
  · intro now2 rows
    unfold listTasks
    cases h : cacheGet s now2 <;> simp

/-- C8 witness: the invariants hold after a concrete insert and a
concrete trigger-mediated update on a well-formed one-row table. -/
theorem operations_preserve_invariants_witness :
    WF (createTask ⟨[sampleTask], 2, none⟩ (some "B") none 10 none none).2 ∧
    WF (updateTask ⟨[sampleTask], 2, none⟩ 1 "C" none true 10) :=
  ⟨((operations_preserve_invariants ⟨[sampleTask], 2, none⟩ 10 (by decide)
      (by decide)).1 (some "B") none none none).1,
   ((operations_preserve_invariants ⟨[sampleTask], 2, none⟩ 10 (by decide)
      (by decide)).2.1 1 "C" none true).1⟩

/-- C9: a `list()` that hits the cache returns the cached value and
returns early: the database reply parameter is irrelevant (no store
query) and the whole state — cached value and expiry included — is
returned unchanged. -/
theorem list_hit_leaves_state_unchanged
    (s : SysState) (now : Nat) (v rows : List Task)
    (hhit : cacheGet s now = some v) :
    listTasks s now rows = (⟨"cache", v⟩, s) := by
  simp [listTasks, hhit]

/-- C9 witness: a concrete cache hit. -/
theorem list_hit_leaves_state_unchanged_witness :
    listTasks ⟨[sampleTask], 2, some ⟨[sampleTask], 30⟩⟩ 10 [sampleTask2]
      = (⟨"cache", [sampleTask]⟩, ⟨[sampleTask], 2, some ⟨[sampleTask], 30⟩⟩) :=
  list_hit_leaves_state_unchanged ⟨[sampleTask], 2, some ⟨[sampleTask], 30⟩⟩
    10 [sampleTask] [sampleTask2] rfl

/-- C10: `GET /health` always answers 200 with status `healthy` and
the current timestamp, and neither reads nor writes the store or the
cache: the response is independent of the state, which passes through
untouched. -/
theorem health_always_healthy (s : SysState) (now : Nat) :
    healthHandler s now = ((200, ⟨"healthy", now⟩), s) := rfl

end TaskApp
